import Mathlib

/-!
Shallow embedding of the PeerDB CDC core (Postgres connector) and its
supporting utilities, together with proofs of the specified properties.

The embedding follows the Go sources:
* `util.RandomString` (src/unnamed/part_000),
* `PostgresConnector.{GetLastOffset, PullRecords, SyncRecords,
  NormalizeRecords, recordHeartbeatWithRecover}` (src/unnamed/part_003).

Database effects are made explicit: the per-job metadata rows and the raw
tables form a `DestState`, and the outcomes of the fallible external steps
(COPY, commit, the CDC pull, the slot/publication check, random bytes,
heartbeats) are supplied through small environment records, so each Go
function becomes a pure Lean function from environment and state to an
`Except` result.
-/

namespace PeerDB

/-! ### Record model (package `model`, used by part_003) -/

/-- Modelled from the spec: the `model` package's `RecordItems` (not in src/)
is a map from column names to values; `ToJSON` renders it as a JSON object
using the documented canonical encoding.  We keep the column/value pairs and
render them canonically; the encoding's internals are irrelevant to the
claims, which only compare rendered items for equality. -/
structure RecordItems where
  items : List (String × String)
deriving DecidableEq, Repr

/-- Modelled from the spec: `RecordItems.ToJSON` renders the items as a JSON
object string. -/
def RecordItems.toJSON (ri : RecordItems) : String :=
  "\x7b" ++ String.intercalate (",")
    (ri.items.map (fun kv => "\"" ++ kv.1 ++ "\":" ++ kv.2)) ++ "\x7d"

/-- A change record: `model.InsertRecord`, `model.UpdateRecord` or
`model.DeleteRecord`, with the fields SyncRecords reads. -/
inductive Record
  | insert (destinationTableName : String) (items : RecordItems)
      (checkPointID : Int) (unchangedToastColumns : List String)
  | update (destinationTableName : String) (newItems oldItems : RecordItems)
      (checkPointID : Int) (unchangedToastColumns : List String)
  | delete (destinationTableName : String) (items : RecordItems)
      (checkPointID : Int) (unchangedToastColumns : List String)
deriving DecidableEq, Repr

/-- `Record.GetCheckPointID`. -/
def Record.getCheckPointID : Record → Int
  | .insert _ _ cp _ => cp
  | .update _ _ _ cp _ => cp
  | .delete _ _ cp _ => cp

/-- The destination table name carried by a record. -/
def Record.destinationTableName : Record → String
  | .insert t _ _ _ => t
  | .update t _ _ _ _ => t
  | .delete t _ _ _ => t

/-- `model.RecordBatch`: the ordered records plus the batch checkpoints. -/
structure RecordBatch where
  records : List Record
  firstCheckPointID : Int
  lastCheckPointID : Int
deriving DecidableEq, Repr

/-- `model.SyncRecordsRequest`. -/
structure SyncRecordsRequest where
  flowJobName : String
  records : RecordBatch
deriving DecidableEq, Repr

/-- `model.SyncResponse`, with the fields part_003 fills in. -/
structure SyncResponse where
  firstSyncedCheckPointID : Int
  lastSyncedCheckPointID : Int
  numRecordsSynced : Int
  currentSyncBatchID : Int
  tableNameRowsMapping : String → Nat

/-- `model.NormalizeResponse`. -/
structure NormalizeResponse where
  done : Bool
  startBatchID : Int
  endBatchID : Int
deriving DecidableEq, Repr

/-! ### Destination state: job metadata store (C7) and raw tables -/

/-- One row of the mirror-jobs metadata table:
`mirror_jobs(job_name PK, last_offset, sync_batch_id, normalize_batch_id)`. -/
structure JobMetadata where
  lastOffset : Int
  syncBatchID : Int
  normalizeBatchID : Int
deriving DecidableEq, Repr

/-- One row of the raw table, in the column order of the COPY in
SyncRecords: `_peerdb_uid, _peerdb_timestamp, _peerdb_destination_table_name,
_peerdb_data, _peerdb_record_type, _peerdb_match_data, _peerdb_batch_id,
_peerdb_unchanged_toast_columns`. -/
structure RawRow where
  uid : String
  timestamp : Int
  destinationTableName : String
  data : String
  recordType : Int
  matchData : String
  batchID : Int
  unchangedToastColumns : String
deriving DecidableEq, Repr

/-- The destination-side state the connector mutates: the metadata row per
job name and the rows of each raw table (keyed by raw-table identifier). -/
structure DestState where
  mirrorJobs : String → Option JobMetadata
  rawRows : String → List RawRow

/-- A destination state with no metadata rows and empty raw tables. -/
def DestState.empty : DestState :=
  { mirrorJobs := fun _ => none, rawRows := fun _ => [] }

/-! ### Helpers of the connector that live in files not under src/ -/

/-- Modelled from the spec: `getRawTableIdentifier` (client.go, not in src/)
derives the per-mirror raw table name `_peerdb_raw_<job>`. -/
def getRawTableIdentifier (jobName : String) : String :=
  "_peerdb_raw_" ++ jobName

/-- Modelled from the spec: `GetLastSyncBatchID` (client.go, not in src/)
loads `sync_batch_id` from the mirror-jobs row, 0 when the job has no row
(progress is resumable from the metadata store alone). -/
def getLastSyncBatchID (st : DestState) (jobName : String) : Int :=
  match st.mirrorJobs jobName with
  | none => 0
  | some md => md.syncBatchID

/-- Modelled from the spec: `getLastNormalizeBatchID` (client.go, not in
src/) loads `normalize_batch_id` from the mirror-jobs row, 0 when the job
has no row. -/
def getLastNormalizeBatchID (st : DestState) (jobName : String) : Int :=
  match st.mirrorJobs jobName with
  | none => 0
  | some md => md.normalizeBatchID

/-- Modelled from the spec: `jobMetadataExists` (client.go, not in src/)
reports whether the mirror-jobs table has a row for the job. -/
def jobMetadataExists (st : DestState) (jobName : String) : Bool :=
  (st.mirrorJobs jobName).isSome

/-- Modelled from the spec: `updateSyncMetadata` (client.go, not in src/)
upserts the mirror-jobs row inside the sync transaction, setting
`last_offset` and `sync_batch_id`; a freshly inserted row starts with
`normalize_batch_id = 0`. -/
def updateSyncMetadata (st : DestState) (jobName : String)
    (lastCP syncBatchID : Int) : DestState :=
  { st with
    mirrorJobs := fun j =>
      if j = jobName then
        some { lastOffset := lastCP, syncBatchID := syncBatchID,
               normalizeBatchID :=
                 match st.mirrorJobs jobName with
                 | none => 0
                 | some md => md.normalizeBatchID }
      else st.mirrorJobs j }

/-- Modelled from the spec: `updateNormalizeMetadata` (client.go, not in
src/) updates `normalize_batch_id` of the existing mirror-jobs row inside
the normalize transaction. -/
def updateNormalizeMetadata (st : DestState) (jobName : String)
    (normalizeBatchID : Int) : DestState :=
  { st with
    mirrorJobs := fun j =>
      if j = jobName then
        (st.mirrorJobs jobName).map
          (fun md => { md with normalizeBatchID := normalizeBatchID })
      else st.mirrorJobs j }

/-- Modelled from the spec: `utils.KeysToString` (connectors/utils, not in
src/) renders the set of unchanged-TOAST column names as a comma-separated,
lexicographically sorted list. -/
def keysToString (keys : List String) : String :=
  String.intercalate (",") (List.insertionSort (fun a b => a ≤ b) keys)

/-! ### util.RandomString (src/unnamed/part_000) -/

/-- The 62-character alphabet of `RandomString`. -/
def alphanum : List Char :=
  "0123456789ABCDEFGHIJKLMNOPQRSTUVWXYZabcdefghijklmnopqrstuvwxyz".toList

/-- `util.RandomString` (part_000 lines 31-42).  `randRead` is the outcome
of `rand.Read` on the freshly allocated buffer of `n` bytes: `none` when the
read errors, otherwise the `n` random bytes.  Each byte is reduced modulo
the alphabet length and used to index the alphabet. -/
def RandomString (n : Nat) (randRead : Option (List Nat)) : String :=
  match randRead with
  | none => "temp"
  | some bytes =>
      String.mk (bytes.map (fun b => alphanum.getD (b % alphanum.length) 'A'))

/-! ### recordHeartbeatWithRecover (part_003 lines 804-814) -/

/-- `recordHeartbeatWithRecover` (part_003).  The call to
`activity.RecordHeartbeat` may panic when invoked outside a Temporal
workflow; its outcome is the parameter, with `Except.error` standing for a
panic.  The deferred `recover` turns any panic into a logged warning, so the
wrapper always returns normally. -/
def recordHeartbeatWithRecover (heartbeat : Except String Unit) :
    Except String Unit :=
  match heartbeat with
  | .error _ => .ok ()
  | .ok _ => .ok ()

/-! ### GetLastOffset (part_003 lines 147-173) -/

/-- `PostgresConnector.GetLastOffset`.  The query behind `getLastOffsetSQL`
(constant not in src/; modelled from the spec) selects `last_offset` of the
job's mirror-jobs row.  No row yields `nil`; a stored `0` is treated as
"never synced" and also yields `nil`; otherwise the checkpoint is returned. -/
def GetLastOffset (st : DestState) (jobName : String) : Option Int :=
  match st.mirrorJobs jobName with
  | none => none
  | some md => if md.lastOffset = 0 then none else some md.lastOffset

/-! ### SyncRecords (part_003 lines 252-394) -/

/-- Environment of one SyncRecords call: the fresh UUIDs and wall-clock
nanosecond timestamps drawn per record, and the outcomes of the external
destination steps (the COPY, which either errors or reports a row count, and
the transaction commit). -/
structure SyncEnv where
  uuids : Nat → String
  times : Nat → Int
  copyOutcome : Except String Int
  commitOutcome : Except String Unit

/-- The loop body of SyncRecords (lines 270-335): one record expands to one
raw row.  `_record_type` is 0 for insert, 1 for update, 2 for delete;
`_data` is the JSON of the (new) items; `_match_data` is `{}` for insert,
the JSON of the old items for update, and the same JSON as `_data` for
delete; `_unchanged_toast_columns` is `utils.KeysToString` of the record's
unchanged-TOAST column set. -/
def processRecord (syncBatchID : Int) (uid : String) (ts : Int) :
    Record → RawRow
  | .insert t items _ toast =>
      { uid := uid, timestamp := ts, destinationTableName := t,
        data := items.toJSON, recordType := 0, matchData := "\x7b\x7d",
        batchID := syncBatchID, unchangedToastColumns := keysToString toast }
  | .update t newItems oldItems _ toast =>
      { uid := uid, timestamp := ts, destinationTableName := t,
        data := newItems.toJSON, recordType := 1,
        matchData := oldItems.toJSON, batchID := syncBatchID,
        unchangedToastColumns := keysToString toast }
  | .delete t items _ toast =>
      { uid := uid, timestamp := ts, destinationTableName := t,
        data := items.toJSON, recordType := 2, matchData := items.toJSON,
        batchID := syncBatchID, unchangedToastColumns := keysToString toast }

/-- The rows accumulated by the SyncRecords loop, in batch order, with the
per-iteration fresh UUID and timestamp drawn from the environment. -/
def expandRecords (syncBatchID : Int) (env : SyncEnv)
    (records : List Record) : List RawRow :=
  records.enum.map (fun p => processRecord syncBatchID (env.uuids p.1) (env.times p.1) p.2)

/-- The `tableNameRowsMapping` accumulated by the SyncRecords loop. -/
def tableNameRowsMappingOf (records : List Record) : String → Nat :=
  records.foldl
    (fun m r => fun t => if t = r.destinationTableName then m t + 1 else m t)
    (fun _ => 0)

/-- `firstCP` of the SyncRecords loop: the checkpoint of the first record,
0 when the batch is empty. -/
def firstCheckpointOf (records : List Record) : Int :=
  match records with
  | [] => 0
  | r :: _ => r.getCheckPointID

/-- `PostgresConnector.SyncRecords` (part_003 lines 252-394).  Reads the
previous `sync_batch_id` and increments it, expands each record to one raw
row, returns the zero response for an empty batch, and otherwise COPYs the
rows, fails when the COPY errors or reports a row count different from the
number of rows, updates `last_offset` and `sync_batch_id` in the same
transaction, and commits.  An `Except.error` result means the transaction
was rolled back: the returned state exists only on the `.ok` path, so no
metadata or raw-table change survives an error. -/
def SyncRecords (env : SyncEnv) (st : DestState) (req : SyncRecordsRequest) :
    Except String (SyncResponse × DestState) :=
  let rawTableIdentifier := getRawTableIdentifier req.flowJobName
  let syncBatchID := getLastSyncBatchID st req.flowJobName + 1
  let rows := expandRecords syncBatchID env req.records.records
  let firstCP := firstCheckpointOf req.records.records
  let lastCP := req.records.lastCheckPointID
  if rows.length = 0 then
    .ok ({ firstSyncedCheckPointID := 0, lastSyncedCheckPointID := 0,
           numRecordsSynced := 0, currentSyncBatchID := 0,
           tableNameRowsMapping := fun _ => 0 }, st)
  else
    match env.copyOutcome with
    | .error e => .error ("error syncing records: " ++ e)
    | .ok syncedRecordsCount =>
        if syncedRecordsCount ≠ (rows.length : Int) then
          .error ("error syncing records: expected " ++ toString rows.length ++
            " records to be synced, but " ++ toString syncedRecordsCount ++
            " were synced")
        else
          let st1 := updateSyncMetadata st req.flowJobName lastCP syncBatchID
          let st2 : DestState :=
            { st1 with
              rawRows := fun t =>
                if t = rawTableIdentifier then st1.rawRows t ++ rows
                else st1.rawRows t }
          match env.commitOutcome with
          | .error e => .error e
          | .ok _ =>
              .ok ({ firstSyncedCheckPointID := firstCP,
                     lastSyncedCheckPointID := lastCP,
                     numRecordsSynced := (rows.length : Int),
                     currentSyncBatchID := syncBatchID,
                     tableNameRowsMapping :=
                       tableNameRowsMappingOf req.records.records }, st2)

/-! ### NormalizeRecords (part_003 lines 396-493) -/

/-- Environment of one NormalizeRecords call: the outcomes of the external
destination steps.  `mergeOutcome` covers reading the per-table
unchanged-TOAST map, the server version check and the pipelined merge
statements (their effect is on the user-visible normalized tables, which are
outside the modelled metadata/raw state); `commitOutcome` is the commit. -/
structure NormalizeEnv where
  mergeOutcome : Except String Unit
  commitOutcome : Except String Unit

/-- `PostgresConnector.NormalizeRecords` (part_003 lines 396-493).  Reads
`sync_batch_id` and `normalize_batch_id`; when they are equal or the job has
no metadata row it returns `{done, start := normalize_batch_id,
end := sync_batch_id}` without opening a transaction; otherwise it runs the
merge statements and, in the same transaction, sets `normalize_batch_id` to
the `sync_batch_id` read at the start, commits, and returns
`{done, start := normalize_batch_id + 1, end := sync_batch_id}`. -/
def NormalizeRecords (env : NormalizeEnv) (st : DestState)
    (jobName : String) : Except String (NormalizeResponse × DestState) :=
  let syncBatchID := getLastSyncBatchID st jobName
  let normalizeBatchID := getLastNormalizeBatchID st jobName
  if syncBatchID = normalizeBatchID ∨ jobMetadataExists st jobName = false then
    .ok ({ done := true, startBatchID := normalizeBatchID,
           endBatchID := syncBatchID }, st)
  else
    match env.mergeOutcome with
    | .error e => .error ("error executing merge statements: " ++ e)
    | .ok _ =>
        let st1 := updateNormalizeMetadata st jobName syncBatchID
        match env.commitOutcome with
        | .error e => .error e
        | .ok _ =>
            .ok ({ done := true, startBatchID := normalizeBatchID + 1,
                   endBatchID := syncBatchID }, st1)

/-! ### PullRecords (part_003 lines 175-249) -/

/-- `SlotCheckResult` (part_003 lines 495-498). -/
structure SlotCheckResult where
  slotExists : Bool
  publicationExists : Bool
deriving DecidableEq, Repr

/-- The slot and publication names a `PostgresCDCConfig` is built with
(part_003 lines 213-220); the other config fields are connection handles and
table maps that the claims do not mention. -/
structure PostgresCDCConfig where
  slot : String
  publication : String
deriving DecidableEq, Repr

/-- `model.PullRecordsRequest`, with the fields part_003 reads. -/
structure PullRecordsRequest where
  flowJobName : String
  overrideReplicationSlotName : String
  overridePublicationName : String
deriving DecidableEq, Repr

/-- Environment of one PullRecords call: the outcome of
`checkSlotAndPublication`, the CDC source's pull as a function of the
config it was created with, and the outcome of the post-pull metrics and
monitoring steps that run when the batch is non-empty. -/
structure PullEnv where
  checkOutcome : Except String SlotCheckResult
  cdcPull : PostgresCDCConfig → Except String RecordBatch
  postPullOutcome : Except String Unit

/-- Slot name used by PullRecords: `peerflow_slot_<job>` unless
overridden (part_003 lines 177-181). -/
def slotNameFor (req : PullRecordsRequest) : String :=
  if req.overrideReplicationSlotName = "" then
    "peerflow_slot_" ++ req.flowJobName
  else req.overrideReplicationSlotName

/-- Publication name used by PullRecords before the existence check:
`peerflow_pub_<job>` unless overridden (part_003 lines 183-187). -/
def publicationNameFor (req : PullRecordsRequest) : String :=
  if req.overridePublicationName = "" then
    "peerflow_pub_" ++ req.flowJobName
  else req.overridePublicationName

/-- The tail of PullRecords after the slot/publication checks (part_003
lines 213-248): create the CDC source with the chosen names, pull, and on a
non-empty batch run the metrics/monitoring steps.  PullRecords never writes
job metadata, so the state is returned unchanged. -/
def pullRecordsFrom (env : PullEnv) (st : DestState)
    (slotName publicationName : String) :
    Except String (RecordBatch × DestState) :=
  match env.cdcPull { slot := slotName, publication := publicationName } with
  | .error e => .error e
  | .ok recordBatch =>
      if recordBatch.records.length > 0 then
        match env.postPullOutcome with
        | .error e => .error e
        | .ok _ => .ok (recordBatch, st)
      else .ok (recordBatch, st)

/-- `PostgresConnector.PullRecords` (part_003 lines 175-249).  Derives the
slot and publication names, checks their existence; a missing publication
downgrades the publication name to the empty string (no filter) after a
logged warning, while a missing slot fails the call with an error naming the
slot. -/
def PullRecords (env : PullEnv) (st : DestState) (req : PullRecordsRequest) :
    Except String (RecordBatch × DestState) :=
  let slotName := slotNameFor req
  match env.checkOutcome with
  | .error e =>
      .error ("error checking for replication slot and publication: " ++ e)
  | .ok ex =>
      let publicationName :=
        if ex.publicationExists then publicationNameFor req else ("")
      if ex.slotExists = false then
        .error ("replication slot " ++ slotName ++ " does not exist")
      else
        pullRecordsFrom env st slotName publicationName

/-! ### Derived result forms and invariants -/

/-- The response a successful non-empty SyncRecords returns (part_003 lines
387-393), phrased over the request and the pre-state. -/
def syncSuccessResponse (st : DestState) (req : SyncRecordsRequest) :
    SyncResponse :=
  { firstSyncedCheckPointID := firstCheckpointOf req.records.records,
    lastSyncedCheckPointID := req.records.lastCheckPointID,
    numRecordsSynced := (req.records.records.length : Int),
    currentSyncBatchID := getLastSyncBatchID st req.flowJobName + 1,
    tableNameRowsMapping := tableNameRowsMappingOf req.records.records }

/-- The destination state a successful non-empty SyncRecords commits: the
raw rows appended to the job's raw table and the metadata row upserted with
the batch's last checkpoint and the new batch id, both in one transaction. -/
def syncSuccessState (env : SyncEnv) (st : DestState)
    (req : SyncRecordsRequest) : DestState :=
  let syncBatchID := getLastSyncBatchID st req.flowJobName + 1
  let st1 := updateSyncMetadata st req.flowJobName
    req.records.lastCheckPointID syncBatchID
  { st1 with
    rawRows := fun t =>
      if t = getRawTableIdentifier req.flowJobName then
        st1.rawRows t ++ expandRecords syncBatchID env req.records.records
      else st1.rawRows t }

/-- The spec's invariant 1: on every metadata row,
`normalize_batch_id ≤ sync_batch_id`. -/
def metadataInvariant (st : DestState) : Prop :=
  ∀ j md, st.mirrorJobs j = some md → md.normalizeBatchID ≤ md.syncBatchID

/-! ### Concrete fixtures used by the witness theorems -/

/-- A sync environment whose COPY reports one row and whose commit
succeeds. -/
def envSyncOK : SyncEnv :=
  { uuids := fun i => "uid-" ++ toString i, times := fun i => (i : Int),
    copyOutcome := .ok 1, commitOutcome := .ok () }

/-- A sync environment whose COPY reports five rows. -/
def envSyncMismatch : SyncEnv := { envSyncOK with copyOutcome := .ok 5 }

/-- A concrete insert record at checkpoint 7. -/
def recW : Record := .insert ("public.t") ⟨[("id", "1")]⟩ 7 []

/-- A one-record batch request for job `cdcjob`. -/
def reqOne : SyncRecordsRequest :=
  { flowJobName := "cdcjob",
    records := { records := [recW], firstCheckPointID := 7,
                 lastCheckPointID := 7 } }

/-- An empty-batch request for job `cdcjob`. -/
def reqEmpty : SyncRecordsRequest :=
  { flowJobName := "cdcjob",
    records := { records := [], firstCheckPointID := 0,
                 lastCheckPointID := 0 } }

/-- A destination state where job `cdcjob` has metadata row
`(last_offset 5, sync_batch_id 1, normalize_batch_id 0)`. -/
def stJob : DestState :=
  { mirrorJobs := fun j =>
      if j = "cdcjob" then
        some { lastOffset := 5, syncBatchID := 1, normalizeBatchID := 0 }
      else none,
    rawRows := fun _ => [] }

/-- A destination state where job `cdcjob` has a stored offset of 0. -/
def stZeroOffset : DestState :=
  { mirrorJobs := fun j =>
      if j = "cdcjob" then
        some { lastOffset := 0, syncBatchID := 3, normalizeBatchID := 1 }
      else none,
    rawRows := fun _ => [] }

/-- A normalize environment whose merge and commit succeed. -/
def envNormOK : NormalizeEnv :=
  { mergeOutcome := .ok (), commitOutcome := .ok () }

/-- A pull environment whose slot/publication check reports both missing. -/
def envPullMissing : PullEnv :=
  { checkOutcome := .ok { slotExists := false, publicationExists := false },
    cdcPull := fun _ =>
      .ok { records := [], firstCheckPointID := 0, lastCheckPointID := 0 },
    postPullOutcome := .ok () }

/-- A pull request for job `cdcjob` with no overrides. -/
def reqPull : PullRecordsRequest :=
  { flowJobName := "cdcjob", overrideReplicationSlotName := "",
    overridePublicationName := "" }

/-! ### Helper lemmas -/

/-- Each record expands to exactly one raw row. -/
theorem expandRecords_length (syncBatchID : Int) (env : SyncEnv)
    (records : List Record) :
    (expandRecords syncBatchID env records).length = records.length := by
  simp [expandRecords]

/-- Reading back the metadata row written by `updateSyncMetadata`. -/
theorem updateSyncMetadata_self (st : DestState) (jobName : String)
    (lastCP syncBatchID : Int) :
    (updateSyncMetadata st jobName lastCP syncBatchID).mirrorJobs jobName =
      some { lastOffset := lastCP, syncBatchID := syncBatchID,
             normalizeBatchID := getLastNormalizeBatchID st jobName } := by
  unfold updateSyncMetadata getLastNormalizeBatchID
  simp

/-- `normalize_batch_id ≤ sync_batch_id` read through the metadata store. -/
theorem getLastNormalizeBatchID_le (st : DestState) (jobName : String)
    (hinv : metadataInvariant st) :
    getLastNormalizeBatchID st jobName ≤ getLastSyncBatchID st jobName := by
  unfold getLastNormalizeBatchID getLastSyncBatchID
  rcases h : st.mirrorJobs jobName with _ | md
  · exact le_refl 0
  · exact hinv jobName md h

/-! ### C9 — heartbeat panics are swallowed -/

/-- C9: for every invocation, `recordHeartbeatWithRecover` never propagates
a panic to its caller: whatever outcome `activity.RecordHeartbeat` has
(including the panic it raises outside a Temporal workflow, modelled as the
`Except.error` case), the deferred `recover` swallows it and the wrapper
returns normally. -/
theorem recordHeartbeatWithRecover_total (heartbeat : Except String Unit) :
    recordHeartbeatWithRecover heartbeat = .ok () := by
  cases heartbeat <;> rfl

/-! ### C7 — GetLastOffset nil/non-nil behaviour -/

/-- C7: `GetLastOffset` returns `nil` (without error) both when the job has
no metadata row and when the stored offset is 0, and it returns a non-nil
checkpoint exactly when a row exists with a non-zero stored offset. -/
theorem GetLastOffset_characterization (st : DestState) (jobName : String) :
    (st.mirrorJobs jobName = none → GetLastOffset st jobName = none) ∧
    (∀ md, st.mirrorJobs jobName = some md → md.lastOffset = 0 →
      GetLastOffset st jobName = none) ∧
    (∀ cp, GetLastOffset st jobName = some cp ↔
      ∃ md, st.mirrorJobs jobName = some md ∧ md.lastOffset ≠ 0 ∧
        md.lastOffset = cp) := by
  refine ⟨?_, ?_, ?_⟩
  · intro h
    unfold GetLastOffset
    rw [h]
  · intro md hmd hz
    unfold GetLastOffset
    rw [hmd]
    show (if md.lastOffset = 0 then (none : Option Int)
      else some md.lastOffset) = none
    rw [if_pos hz]
  · intro cp
    constructor
    · intro hcp
      unfold GetLastOffset at hcp
      rcases h : st.mirrorJobs jobName with _ | md
      · rw [h] at hcp
        cases hcp
      · rw [h] at hcp
        have hcp' : (if md.lastOffset = 0 then (none : Option Int)
            else some md.lastOffset) = some cp := hcp
        by_cases hz : md.lastOffset = 0
        · rw [if_pos hz] at hcp'
          cases hcp'
        · rw [if_neg hz] at hcp'
          injection hcp' with h'
          exact ⟨md, rfl, hz, h'⟩
    · rintro ⟨md, hmd, hne, hcp⟩
      unfold GetLastOffset
      rw [hmd]
      show (if md.lastOffset = 0 then (none : Option Int)
        else some md.lastOffset) = some cp
      rw [if_neg hne, hcp]

/-- C7 witness: concrete states exercising the missing-row, zero-offset and
non-zero-offset cases of `GetLastOffset`. -/
theorem GetLastOffset_characterization_witness :
    GetLastOffset stZeroOffset ("otherjob") = none ∧
    GetLastOffset stZeroOffset ("cdcjob") = none ∧
    GetLastOffset stJob ("cdcjob") = some 5 :=
  ⟨(GetLastOffset_characterization stZeroOffset ("otherjob")).1 rfl,
   (GetLastOffset_characterization stZeroOffset ("cdcjob")).2.1
     { lastOffset := 0, syncBatchID := 3, normalizeBatchID := 1 } rfl rfl,
   ((GetLastOffset_characterization stJob ("cdcjob")).2.2 5).2
     ⟨{ lastOffset := 5, syncBatchID := 1, normalizeBatchID := 0 },
      rfl, by decide, rfl⟩⟩

/-! ### C10 — RandomString -/

/-- C10: for every `n`, when the random read succeeds `RandomString`
returns a string of length exactly `n` whose characters all come from the
62-character alphabet, and when the read fails it returns the constant
string `temp` of length 4 regardless of `n`. -/
theorem RandomString_spec (n : Nat) :
    (∀ bytes : List Nat, bytes.length = n →
      (RandomString n (some bytes)).length = n ∧
      ∀ c ∈ (RandomString n (some bytes)).toList, c ∈ alphanum) ∧
    RandomString n none = "temp" ∧ (RandomString n none).length = 4 := by
  refine ⟨?_, rfl, rfl⟩
  intro bytes hlen
  constructor
  · simpa [RandomString, String.length_mk] using hlen
  · intro c hc
    have hc' : c ∈ bytes.map
        (fun b => alphanum.getD (b % alphanum.length) 'A') := by
      simpa [RandomString] using hc
    rcases List.mem_map.mp hc' with ⟨b, _, rfl⟩
    have hlt : b % alphanum.length < alphanum.length :=
      Nat.mod_lt _ (by decide)
    rw [List.getD_eq_getElem alphanum 'A' hlt]
    exact List.getElem_mem hlt

/-- C10 witness: a concrete successful read of three bytes and a concrete
failed read. -/
theorem RandomString_spec_witness :
    ([5, 100, 255] : List Nat).length = 3 ∧
    (RandomString 3 (some [5, 100, 255])).length = 3 ∧
    RandomString 3 none = "temp" :=
  ⟨by decide, ((RandomString_spec 3).1 [5, 100, 255] (by decide)).1,
    (RandomString_spec 3).2.1⟩

/-! ### C8 — SyncRecords on an empty batch -/

/-- C8: called with an empty batch, SyncRecords returns the zero response
`{first = 0, last = 0, rows = 0}` and leaves the destination state — the
metadata row (so `sync_batch_id` and `last_offset`) and every raw table —
unchanged. -/
theorem SyncRecords_empty_batch (env : SyncEnv) (st : DestState)
    (req : SyncRecordsRequest) (h : req.records.records = []) :
    SyncRecords env st req =
      .ok ({ firstSyncedCheckPointID := 0, lastSyncedCheckPointID := 0,
             numRecordsSynced := 0, currentSyncBatchID := 0,
             tableNameRowsMapping := fun _ => 0 }, st) := by
  simp [SyncRecords, h, expandRecords]

/-- C8 witness: the empty-batch request on a state with existing metadata. -/
theorem SyncRecords_empty_batch_witness :
    SyncRecords envSyncOK stJob reqEmpty =
      .ok ({ firstSyncedCheckPointID := 0, lastSyncedCheckPointID := 0,
             numRecordsSynced := 0, currentSyncBatchID := 0,
             tableNameRowsMapping := fun _ => 0 }, stJob) :=
  SyncRecords_empty_batch envSyncOK stJob reqEmpty rfl

/-! ### C5 — raw-row expansion of a record -/

/-- C5: every record expands to exactly one raw row; `_record_type` is 0
for insert, 1 for update and 2 for delete; `_data` is the JSON of the new
items (for delete, of the items the delete record carries); `_match_data`
is the JSON of the old items for update, the literal `\x7b\x7d` for insert
and equal to `_data` for delete; and `_unchanged_toast_columns` is the
comma-separated, lexicographically sorted list of the unchanged-TOAST
column names. -/
theorem record_expansion (bid : Int) (uid : String) (ts : Int) :
    (∀ env records, (expandRecords bid env records).length = records.length) ∧
    (∀ t items cp toast,
      processRecord bid uid ts (.insert t items cp toast) =
        { uid := uid, timestamp := ts, destinationTableName := t,
          data := items.toJSON, recordType := 0, matchData := "\x7b\x7d",
          batchID := bid, unchangedToastColumns := keysToString toast }) ∧
    (∀ t newItems oldItems cp toast,
      processRecord bid uid ts (.update t newItems oldItems cp toast) =
        { uid := uid, timestamp := ts, destinationTableName := t,
          data := newItems.toJSON, recordType := 1,
          matchData := oldItems.toJSON, batchID := bid,
          unchangedToastColumns := keysToString toast }) ∧
    (∀ t items cp toast,
      processRecord bid uid ts (.delete t items cp toast) =
        { uid := uid, timestamp := ts, destinationTableName := t,
          data := items.toJSON, recordType := 2, matchData := items.toJSON,
          batchID := bid, unchangedToastColumns := keysToString toast }) ∧
    (∀ toast : List String, ∃ sortedCols : List String,
      sortedCols.Perm toast ∧ List.Sorted (fun a b => a ≤ b) sortedCols ∧
      keysToString toast = String.intercalate (",") sortedCols) := by
  refine ⟨expandRecords_length bid, fun _ _ _ _ => rfl, fun _ _ _ _ _ => rfl,
    fun _ _ _ _ => rfl, fun toast => ?_⟩
  exact ⟨List.insertionSort (fun a b => a ≤ b) toast,
    List.perm_insertionSort (fun a b => a ≤ b) toast,
    List.sorted_insertionSort (fun a b => a ≤ b) toast, rfl⟩

/-! ### C1 — row-count mismatch aborts the sync -/

/-- C1: for every non-empty batch, when the COPY reports a row count `m`
different from the number of records, SyncRecords returns an error; the
metadata update (which the code only reaches after this check) never
happens, and since the function errors before committing, the deferred
rollback discards the transaction — in the embedding no destination state
is produced, so neither `last_offset` nor `sync_batch_id` advances. -/
theorem SyncRecords_rowcount_mismatch (env : SyncEnv) (st : DestState)
    (req : SyncRecordsRequest) (m : Int)
    (hne : req.records.records ≠ [])
    (hcopy : env.copyOutcome = .ok m)
    (hm : m ≠ (req.records.records.length : Int)) :
    SyncRecords env st req =
      .error ("error syncing records: expected " ++
        toString req.records.records.length ++
        " records to be synced, but " ++ toString m ++ " were synced") := by
  have hlen0 : ¬req.records.records.length = 0 := by
    simpa using hne
  simp only [SyncRecords, expandRecords_length, hcopy]
  rw [if_neg hlen0, if_pos hm]

/-- C1 witness: a one-record batch whose COPY reports five rows. -/
theorem SyncRecords_rowcount_mismatch_witness :
    SyncRecords envSyncMismatch stJob reqOne =
      .error ("error syncing records: expected " ++
        toString reqOne.records.records.length ++
        " records to be synced, but " ++ toString (5 : Int) ++
        " were synced") :=
  SyncRecords_rowcount_mismatch envSyncMismatch stJob reqOne 5
    (by decide) rfl (by decide)

/-! ### C3 — successful non-empty sync -/

/-- C3: for every non-empty batch, when the COPY reports exactly the number
of records and the commit succeeds, SyncRecords uses the new batch id
`previous sync_batch_id + 1`, commits a state whose metadata row carries
`last_offset = batch.lastCheckPointID` and `sync_batch_id = new id` in the
same transaction that appended the raw rows, and returns a response carrying
the new batch id, the first record's checkpoint, the batch's last
checkpoint, and a row count equal to the number of records. -/
theorem SyncRecords_success (env : SyncEnv) (st : DestState)
    (req : SyncRecordsRequest)
    (hne : req.records.records ≠ [])
    (hcopy : env.copyOutcome = .ok (req.records.records.length : Int))
    (hcommit : env.commitOutcome = .ok ()) :
    SyncRecords env st req =
      .ok (syncSuccessResponse st req, syncSuccessState env st req) ∧
    (syncSuccessResponse st req).currentSyncBatchID =
      getLastSyncBatchID st req.flowJobName + 1 ∧
    (syncSuccessState env st req).mirrorJobs req.flowJobName =
      some { lastOffset := req.records.lastCheckPointID,
             syncBatchID := getLastSyncBatchID st req.flowJobName + 1,
             normalizeBatchID := getLastNormalizeBatchID st req.flowJobName } ∧
    (∀ r rs, req.records.records = r :: rs →
      (syncSuccessResponse st req).firstSyncedCheckPointID =
        r.getCheckPointID) ∧
    (syncSuccessResponse st req).lastSyncedCheckPointID =
      req.records.lastCheckPointID ∧
    (syncSuccessResponse st req).numRecordsSynced =
      (req.records.records.length : Int) ∧
    (syncSuccessState env st req).rawRows
        (getRawTableIdentifier req.flowJobName) =
      st.rawRows (getRawTableIdentifier req.flowJobName) ++
        expandRecords (getLastSyncBatchID st req.flowJobName + 1) env
          req.records.records := by
  have hlen0 : ¬req.records.records.length = 0 := by
    simpa using hne
  refine ⟨?_, rfl, ?_, ?_, rfl, rfl, ?_⟩
  · simp only [SyncRecords, expandRecords_length, hcopy, hcommit]
    rw [if_neg hlen0, if_neg (fun h => h rfl)]
    rfl
  · show (updateSyncMetadata st req.flowJobName req.records.lastCheckPointID
      (getLastSyncBatchID st req.flowJobName + 1)).mirrorJobs
        req.flowJobName = _
    exact updateSyncMetadata_self st req.flowJobName
      req.records.lastCheckPointID (getLastSyncBatchID st req.flowJobName + 1)
  · intro r rs hr
    simp [syncSuccessResponse, firstCheckpointOf, hr]
  · simp only [syncSuccessState]
    split
    next => rfl
    next h => simp at h

/-- C3 witness: a one-record batch synced from a state whose stored
`sync_batch_id` is 1 gets batch id 2 and checkpoint 7. -/
theorem SyncRecords_success_witness :
    SyncRecords envSyncOK stJob reqOne =
      .ok (syncSuccessResponse stJob reqOne,
           syncSuccessState envSyncOK stJob reqOne) ∧
    (syncSuccessResponse stJob reqOne).currentSyncBatchID = 2 ∧
    (syncSuccessState envSyncOK stJob reqOne).mirrorJobs ("cdcjob") =
      some { lastOffset := 7, syncBatchID := 2, normalizeBatchID := 0 } :=
  ⟨(SyncRecords_success envSyncOK stJob reqOne (by decide) rfl rfl).1,
   rfl, rfl⟩

/-! ### C2 — normalize_batch_id ≤ sync_batch_id is preserved -/

/-- The sync-side metadata upsert preserves the invariant when the new
batch id dominates the job's stored normalize batch id. -/
theorem metadataInvariant_updateSyncMetadata (st : DestState)
    (jobName : String) (lastCP bid : Int) (hinv : metadataInvariant st)
    (hle : getLastNormalizeBatchID st jobName ≤ bid) :
    metadataInvariant (updateSyncMetadata st jobName lastCP bid) := by
  intro j md hmd
  simp only [updateSyncMetadata] at hmd
  by_cases hj : j = jobName
  · rw [if_pos hj] at hmd
    injection hmd with h'
    subst h'
    show getLastNormalizeBatchID st jobName ≤ bid
    exact hle
  · rw [if_neg hj] at hmd
    exact hinv j md hmd

/-- The normalize-side metadata update preserves the invariant when the new
normalize batch id is the job's stored sync batch id. -/
theorem metadataInvariant_updateNormalizeMetadata (st : DestState)
    (jobName : String) (hinv : metadataInvariant st) :
    metadataInvariant
      (updateNormalizeMetadata st jobName (getLastSyncBatchID st jobName)) := by
  intro j md hmd
  simp only [updateNormalizeMetadata] at hmd
  by_cases hj : j = jobName
  · rw [if_pos hj] at hmd
    rcases h : st.mirrorJobs jobName with _ | md0
    · rw [h] at hmd
      cases hmd
    · rw [h] at hmd
      injection hmd with h'
      subst h'
      show getLastSyncBatchID st jobName ≤ md0.syncBatchID
      unfold getLastSyncBatchID
      rw [h]
  · rw [if_neg hj] at hmd
    exact hinv j md hmd

/-- C2: after any successful SyncRecords or NormalizeRecords, the stored
`normalize_batch_id` is still ≤ the stored `sync_batch_id` on every row:
SyncRecords only increments `sync_batch_id`, and NormalizeRecords sets
`normalize_batch_id` to the `sync_batch_id` it read at the start. -/
theorem batchID_invariant (env : SyncEnv) (nenv : NormalizeEnv)
    (st : DestState) (req : SyncRecordsRequest) (jobName : String)
    (resp : SyncResponse) (st1 : DestState) (nresp : NormalizeResponse)
    (st2 : DestState)
    (hinv : metadataInvariant st)
    (hsync : SyncRecords env st req = .ok (resp, st1))
    (hnorm : NormalizeRecords nenv st jobName = .ok (nresp, st2)) :
    metadataInvariant st1 ∧ metadataInvariant st2 := by
  constructor
  · simp only [SyncRecords] at hsync
    split at hsync
    · injection hsync with h'
      injection h' with _ hst
      subst hst
      exact hinv
    · split at hsync
      · cases hsync
      · split at hsync
        · cases hsync
        · split at hsync
          · cases hsync
          · injection hsync with h'
            injection h' with _ hst
            subst hst
            intro j md hmd
            have hmd' : (updateSyncMetadata st req.flowJobName
                req.records.lastCheckPointID
                (getLastSyncBatchID st req.flowJobName + 1)).mirrorJobs j =
                some md := hmd
            refine metadataInvariant_updateSyncMetadata st req.flowJobName
              req.records.lastCheckPointID
              (getLastSyncBatchID st req.flowJobName + 1) hinv ?_ j md hmd'
            have := getLastNormalizeBatchID_le st req.flowJobName hinv
            omega
  · simp only [NormalizeRecords] at hnorm
    split at hnorm
    · injection hnorm with h'
      injection h' with _ hst
      subst hst
      exact hinv
    · split at hnorm
      · cases hnorm
      · split at hnorm
        · cases hnorm
        · injection hnorm with h'
          injection h' with _ hst
          subst hst
          exact metadataInvariant_updateNormalizeMetadata st jobName hinv

/-- C2 witness: the invariant holds after a concrete successful sync and a
concrete successful normalize from a state satisfying it. -/
theorem batchID_invariant_witness :
    metadataInvariant (syncSuccessState envSyncOK stJob reqOne) ∧
    metadataInvariant (updateNormalizeMetadata stJob ("cdcjob") 1) :=
  batchID_invariant envSyncOK envNormOK stJob reqOne ("cdcjob")
    (syncSuccessResponse stJob reqOne) (syncSuccessState envSyncOK stJob reqOne)
    { done := true, startBatchID := 1, endBatchID := 1 }
    (updateNormalizeMetadata stJob ("cdcjob") 1)
    (fun j md hmd => by
      by_cases hj : j = "cdcjob"
      · subst hj
        have h5 : stJob.mirrorJobs ("cdcjob") =
            some { lastOffset := 5, syncBatchID := 1, normalizeBatchID := 0 } :=
          rfl
        rw [h5] at hmd
        injection hmd with h'
        subst h'
        decide
      · have hnone : stJob.mirrorJobs j = none := by
          simp [stJob, hj]
        rw [hnone] at hmd
        cases hmd)
    rfl rfl

/-! ### C4 — calling NormalizeRecords twice in succession -/

/-- A false `jobMetadataExists` means the job has no metadata row. -/
theorem jobMetadataExists_eq_false (st : DestState) (jobName : String)
    (h : jobMetadataExists st jobName = false) :
    st.mirrorJobs jobName = none := by
  unfold jobMetadataExists at h
  rcases ho : st.mirrorJobs jobName with _ | md
  · rfl
  · rw [ho] at h
    cases h

/-- Batch ids read back after the normalize-side metadata update. -/
theorem updateNormalizeMetadata_batchIDs (st : DestState) (jobName : String)
    (bid : Int) (md0 : JobMetadata) (h : st.mirrorJobs jobName = some md0) :
    getLastSyncBatchID (updateNormalizeMetadata st jobName bid) jobName =
      md0.syncBatchID ∧
    getLastNormalizeBatchID (updateNormalizeMetadata st jobName bid)
      jobName = bid := by
  unfold getLastSyncBatchID getLastNormalizeBatchID updateNormalizeMetadata
  simp [h]

/-- C4 counterexample: from a state with `sync_batch_id = 1`,
`normalize_batch_id = 0`, the first NormalizeRecords succeeds; the second
call (no intervening sync; current `sync_batch_id` S is still 1) returns
`start = 1 = S`, not `S + 1 = 2` as the claim states. -/
theorem NormalizeRecords_twice_counterexample :
    NormalizeRecords envNormOK stJob ("cdcjob") =
      .ok ({ done := true, startBatchID := 1, endBatchID := 1 },
        updateNormalizeMetadata stJob ("cdcjob") 1) ∧
    NormalizeRecords envNormOK (updateNormalizeMetadata stJob ("cdcjob") 1)
        "cdcjob" =
      .ok ({ done := true, startBatchID := 1, endBatchID := 1 },
        updateNormalizeMetadata stJob ("cdcjob") 1) ∧
    getLastSyncBatchID (updateNormalizeMetadata stJob ("cdcjob") 1) "cdcjob" =
      1 ∧
    (1 : Int) ≠ 1 + 1 :=
  ⟨rfl, rfl, rfl, by decide⟩

/-- C4 amended: calling NormalizeRecords twice in succession with no
intervening SyncRecords makes the second call return
`{done := true, start := S, end := S}` — where S is the current
`sync_batch_id`, and `start` equals the stored `normalize_batch_id`, which
the first call has brought up to S — and perform no writes: the state is
returned unchanged. -/
theorem NormalizeRecords_idempotent (env env' : NormalizeEnv)
    (st st1 : DestState) (jobName : String) (resp1 : NormalizeResponse)
    (h : NormalizeRecords env st jobName = .ok (resp1, st1)) :
    NormalizeRecords env' st1 jobName =
      .ok ({ done := true,
             startBatchID := getLastSyncBatchID st1 jobName,
             endBatchID := getLastSyncBatchID st1 jobName }, st1) := by
  simp only [NormalizeRecords] at h ⊢
  split at h
  next hcond =>
    injection h with h'
    injection h' with _ hst
    subst hst
    have heq : getLastSyncBatchID st jobName =
        getLastNormalizeBatchID st jobName := by
      rcases hcond with hcond | hcond
      · exact hcond
      · have hnone := jobMetadataExists_eq_false st jobName hcond
        unfold getLastSyncBatchID getLastNormalizeBatchID
        rw [hnone]
    rw [if_pos (Or.inl heq), heq]
  next hcond =>
    split at h
    · cases h
    · split at h
      · cases h
      · injection h with h'
        injection h' with _ hst
        subst hst
        have hex : jobMetadataExists st jobName = true := by
          rcases hb : jobMetadataExists st jobName with _ | _
          · exact absurd (Or.inr hb) hcond
          · rfl
        obtain ⟨md0, hmd0⟩ :=
          Option.isSome_iff_exists.mp (by unfold jobMetadataExists at hex; exact hex)
        obtain ⟨hsync1, hnorm1⟩ := updateNormalizeMetadata_batchIDs st jobName
          (getLastSyncBatchID st jobName) md0 hmd0
        have hS : getLastSyncBatchID st jobName = md0.syncBatchID := by
          unfold getLastSyncBatchID
          rw [hmd0]
        rw [if_pos (Or.inl (by rw [hsync1, hnorm1, hS]))]
        rw [hnorm1, hsync1, hS]

/-- C4 amended witness: the second call after a concrete successful first
normalize returns start = end = current sync batch id and the unchanged
state. -/
theorem NormalizeRecords_idempotent_witness :
    NormalizeRecords envNormOK (updateNormalizeMetadata stJob ("cdcjob") 1)
        "cdcjob" =
      .ok ({ done := true,
             startBatchID :=
               getLastSyncBatchID
                 (updateNormalizeMetadata stJob ("cdcjob") 1) "cdcjob",
             endBatchID :=
               getLastSyncBatchID
                 (updateNormalizeMetadata stJob ("cdcjob") 1) "cdcjob" },
        updateNormalizeMetadata stJob ("cdcjob") 1) :=
  NormalizeRecords_idempotent envNormOK envNormOK stJob
    (updateNormalizeMetadata stJob ("cdcjob") 1) "cdcjob"
    { done := true, startBatchID := 1, endBatchID := 1 } rfl

/-! ### C6 — PullRecords slot/publication handling -/

/-- The post-check tail of PullRecords never changes the destination
state. -/
theorem pullRecordsFrom_ok_state (env : PullEnv) (st : DestState)
    (slotName publicationName : String) (batch : RecordBatch)
    (st' : DestState)
    (h : pullRecordsFrom env st slotName publicationName =
      .ok (batch, st')) : st' = st := by
  unfold pullRecordsFrom at h
  split at h
  · cases h
  · split at h
    · split at h
      · cases h
      · injection h with h'
        injection h' with _ hst
        exact hst.symm
    · injection h with h'
      injection h' with _ hst
      exact hst.symm

/-- C6: on PullRecords, a missing publication downgrades to an empty
publication name (no filter) and the call continues; a missing replication
slot fails the call with an error that names the slot; and no successful or
failing path changes any job metadata — a successful pull returns the
destination state unchanged, and a failure produces no state at all. -/
theorem PullRecords_slot_publication (env : PullEnv) (st : DestState)
    (req : PullRecordsRequest) (ex : SlotCheckResult)
    (hcheck : env.checkOutcome = .ok ex) :
    (ex.publicationExists = false → ex.slotExists = true →
      PullRecords env st req =
        pullRecordsFrom env st (slotNameFor req) "") ∧
    (ex.slotExists = false →
      PullRecords env st req =
        .error ("replication slot " ++ slotNameFor req ++
          " does not exist")) ∧
    (∀ batch st', PullRecords env st req = .ok (batch, st') → st' = st) := by
  refine ⟨?_, ?_, ?_⟩
  · intro hpub hslot
    simp [PullRecords, hcheck, hpub, hslot]
  · intro hslot
    simp [PullRecords, hcheck, hslot]
  · intro batch st' h
    simp only [PullRecords, hcheck] at h
    split at h
    · cases h
    · exact pullRecordsFrom_ok_state env st (slotNameFor req) _ batch st' h

/-- C6 witness: with both slot and publication reported missing, the pull
for job `cdcjob` fails with an error naming `peerflow_slot_cdcjob`. -/
theorem PullRecords_slot_publication_witness :
    PullRecords envPullMissing DestState.empty reqPull =
      .error ("replication slot " ++ slotNameFor reqPull ++
        " does not exist") :=
  (PullRecords_slot_publication envPullMissing DestState.empty reqPull
    { slotExists := false, publicationExists := false } rfl).2.1 rfl

end PeerDB
